import Mathlib

/-!
Verification of the GoodFork-API restaurant core (tables, bookings, orders,
stock, measurements, payments) against its natural-language specification.

The JavaScript models are shallowly embedded: each `db.query` based CRUD
function becomes a pure Lean function over an explicit `DB` state; JavaScript
numbers are modelled as `ℚ`, timestamps as `Int` (epoch values; an unparseable
date is `Option.none`), nullable/optional arguments as `Option`, and
`ModelError` results as `Except MErr`.  `getFieldsToUpdate`
(global/Functions.js, documented revision with `convertValue`) keeps exactly
the fields that are neither `null` nor `undefined` and writes booleans as 1/0;
in the typed model a field is therefore applied exactly when its `Option`
argument is `some`, and an update call with no `some` field returns the
"nothing to update" ModelError(200) without touching the store.
-/

namespace GoodFork

/-! ## Measurement engine (src/api/models/Measurement.js) -/

/-- One row of the measurement registry, as returned by the SQL join in
`Measurement.getByName`: the unit name, its type name (`mt.name`), and the
multiplicative factor `mut.as_ref_unit` relative to the type reference unit. -/
structure UnitReg where
  unit_name : String
  type_name : String
  as_ref_unit : ℚ
deriving Repr, DecidableEq

/-- Errors raised by the measurement engine (`ModelError` values in the JS). -/
inductive MeasErr where
  /-- `getByName` found no unit with the requested name (400). -/
  | unitNotFound
  /-- one of the two units belongs to the sentinel type "autre" (400). -/
  | notConvertible
  /-- the destination unit has no entry in the `conversions` table (400). -/
  | unsupported
deriving Repr, DecidableEq

/-- `Measurement.getByName`: first registry row whose `name` matches. -/
def measGetByName (reg : List UnitReg) (name : String) : Option UnitReg :=
  reg.find? (fun u => u.unit_name == name)

/-- The literal `conversions` table of Measurement.js, keyed by destination
unit name.  Each entry maps a value expressed in the type's reference unit to
the destination unit.  Calls to the external `convert-units` library are
replaced by their exact rational factors (`converters(x).from("kg").to("g")`
is `x * 1000`, `from("l").to("ml")` is `x * 1000`, `from("l").to("cl")` is
`x * 100`, `from("kg").to("mg")` is `x * 1000000`; the imperial entries use
the library's constants 453.592 g per lb and 33.8140226 fl-oz per litre).
Note the source's `qt` entry is the identity function. -/
def conversions (name : String) : Option (ℚ → ℚ) :=
  if name = "kg" then some (fun mass => mass)
  else if name = "g" then some (fun mass => mass * 1000)
  else if name = "mg" then some (fun mass => mass * 1000000)
  else if name = "L" then some (fun volume => volume)
  else if name = "cL" then some (fun volume => volume * 100)
  else if name = "mL" then some (fun volume => volume * 1000)
  else if name = "oz" then some (fun mass => mass * 16000000 / 453592)
  else if name = "lb" then some (fun mass => mass * 1000000 / 453592)
  else if name = "qt" then some (fun volume => volume)
  else if name = "fl-oz" then some (fun volume => volume * 338140226 / 10000000)
  else if name = "cuill. café" then some (fun value => value * 1000 / 5)
  else if name = "cuill. soupe" then some (fun value => value * 1000 / 15)
  else if name = "noisette" then some (fun mass => mass * 1000 / 4)
  else if name = "noix" then some (fun mass => mass * 1000 / 15)
  else if name = "stick de beurre" then some (fun mass => mass * 1000 / 113)
  else if name = "1 cup" then some (fun volume => volume * 1000 / 250)
  else if name = "1/2 cup" then some (fun volume => volume * 1000 / 125)
  else if name = "1/3 cup" then some (fun volume => volume * 1000 / 80)
  else if name = "1/4 cup" then some (fun volume => volume * 1000 / 60)
  else if name = "pincée" then some (fun value => value * 1000 / 5)
  else none

/-- `Measurement.convert(db, value, from, to)`.  Identity when the two names
are equal; otherwise both units are resolved by name (error if missing), the
sentinel type "autre" is rejected on either side, the value is scaled to the
reference unit by `as_ref_unit`, and the destination's `conversions` entry is
applied (error if absent).  No comparison of the two units' types is made
beyond the "autre" checks. -/
def convert (reg : List UnitReg) (value : ℚ) (fromName toName : String) :
    Except MeasErr ℚ :=
  if fromName = toName then .ok value
  else
    match measGetByName reg fromName with
    | none => .error .unitNotFound
    | some fromUnit =>
      match measGetByName reg toName with
      | none => .error .unitNotFound
      | some toUnit =>
        if fromUnit.type_name = "autre" then .error .notConvertible
        else if toUnit.type_name = "autre" then .error .notConvertible
        else
          let fromRefUnit := value * fromUnit.as_ref_unit
          match conversions toUnit.unit_name with
          | none => .error .unsupported
          | some f => .ok (f fromRefUnit)

/-! ## Checkers (src/global/Checkers.js), restricted to the call shapes the
modelled operations use -/

/-- `Checkers.strInRange(str, null, max, true, canBeNull)` for an optional
string: `null`/`undefined` is accepted exactly when `canBeNull`, otherwise the
length must be at most `max`. -/
def strInRangeOpt (s : Option String) (maxLen : Nat) (canBeNull : Bool) : Bool :=
  match s with
  | none => canBeNull
  | some str => decide (str.length ≤ maxLen)

/-- `Checkers.isGreaterThan(a, b, canBeEqual)` on numbers (a non-number
argument always yields `false` in the JS and is outside this typed model). -/
def isGreaterThan (a b : ℚ) (canBeEqual : Bool) : Bool :=
  if canBeEqual then decide (b ≤ a) else decide (b < a)

/-- `Checkers.isDateLowerThan(d1, d2, canBeEqual, canBeNull)` on optional
dates: with `canBeNull`, a missing date passes; otherwise a missing (invalid)
date fails and two dates compare by their epoch value. -/
def isDateLowerThan (d1 d2 : Option Int) (canBeEqual canBeNull : Bool) : Bool :=
  if canBeNull && (d1.isNone || d2.isNone) then true
  else
    match d1, d2 with
    | some a, some b => if canBeEqual then decide (a ≤ b) else decide (a < b)
    | _, _ => false

/-- JavaScript truthiness of a number (0 is falsy). -/
def qTruthy (x : ℚ) : Bool := decide (x ≠ 0)

/-! ## Data model: one structure per relational table row -/

/-- A row of `tables` (src/api/models/Table.js). -/
structure TableRow where
  table_id : Nat
  name : Option String
  capacity : ℚ
  is_available : Bool
  can_be_used : Bool
deriving Repr, DecidableEq

/-- A row of `bookings` (src/unnamed/part_024, module models/Booking). -/
structure BookingRow where
  booking_id : Nat
  user_id : Nat
  table_id : Nat
  time : Int
  clients_nb : ℚ
  is_client_on_place : Bool
  can_client_pay : Bool
  is_finished : Bool
  is_paid : Bool
deriving Repr, DecidableEq

/-- A row of `users` restricted to the columns `User.getById` selects
(src/api/models/User.js). -/
structure UserRow where
  user_id : Nat
  role : String
  first_name : String
  last_name : String
  email : String
deriving Repr, DecidableEq

/-- A row of `orders` (module models/Order, second document of
src/api/models/Stock.js). -/
structure OrderRow where
  order_id : Nat
  booking_id : Option Nat
  user_id : Nat
  additional_infos : Option String
  total_price : ℚ
  is_take_away : Bool
  is_finished : Bool
deriving Repr, DecidableEq

/-- A row of `orders_menus` (src/api/models/OrderMenus.js). -/
structure OrderMenuRow where
  order_id : Nat
  menu_id : Nat
deriving Repr, DecidableEq

/-- A row of `stocks` (src/api/models/Stock.js). -/
structure StockRow where
  stock_id : Nat
  name : String
  units : ℚ
  units_unit_id : Option Nat
  unit_price : ℚ
  is_orderable : Bool
  is_cookable : Bool
  use_by_date_min : Option Int
  use_by_date_max : Option Int
deriving Repr, DecidableEq

/-- A row of `menu_ingredients` as inserted by `Menu.addIngredient`
(src/api/models/Menu.js); `stock_id` is `none` when the placeholder creation
failed and `newItem.insertId` was `undefined`. -/
structure MenuIngredientRow where
  menu_id : Nat
  stock_id : Option Nat
  units : ℚ
  units_unit_id : Option Nat
deriving Repr, DecidableEq

/-- A menu as passed to `Order.add` / `Payment.payTakeAway`: only the id and
the listed price are consumed by the modelled operations. -/
structure MenuIn where
  menu_id : Nat
  price : ℚ
deriving Repr, DecidableEq

/-- The persistent store.  `todayBenefits` is the `benefits` column of the
`sales_statistics` row for the current day (`none` while that row has not yet
been created).  The `next…Id` counters model the AUTO_INCREMENT keys. -/
structure DB where
  tables : List TableRow
  bookings : List BookingRow
  users : List UserRow
  orders : List OrderRow
  ordersMenus : List OrderMenuRow
  stocks : List StockRow
  menuIngredients : List MenuIngredientRow
  todayBenefits : Option ℚ
  nextBookingId : Nat
  nextOrderId : Nat
  nextStockId : Nat
deriving Repr, DecidableEq

/-- The `ModelError` outcomes the modelled operations produce. -/
inductive MErr where
  /-- ModelError(400). -/
  | badRequest
  /-- ModelError(404). -/
  | notFound
  /-- ModelError(200, nothing to update). -/
  | nothingToUpdate
  /-- a rejected `db.query` promise (e.g. invalid generated SQL). -/
  | dbError
deriving Repr, DecidableEq

/-! ## Capacity allocator (src/api/models/Table.js) -/

/-- Result of `ORDER BY capacity LIMIT 1`: the first row of the list that
attains the minimal capacity (MySQL leaves the relative order of
equal-capacity rows unspecified; rows are modelled in their stored, id,
order). -/
def selectFirstMinCap : List TableRow → Option TableRow
  | [] => none
  | r :: rs =>
    match selectFirstMinCap rs with
    | none => some r
    | some b => if b.capacity < r.capacity then some b else some r

/-- `Table.getByTableCapacity(db, capacity)`: of the rows with
`capacity >= ? AND is_available = 1` (the query does not mention
`can_be_used`), the one with the smallest capacity, else ModelError(404). -/
def getByTableCapacity (tables : List TableRow) (capacity : ℚ) :
    Except MErr TableRow :=
  match selectFirstMinCap
      (tables.filter (fun r => decide (capacity ≤ r.capacity) && r.is_available)) with
  | some t => .ok t
  | none => .error .notFound

/-- Application of the `SET` clause built by `getFieldsToUpdate` to one
`tables` row: exactly the provided (`some`) fields change. -/
def tableApply (r : TableRow) (name : Option String) (capacity : Option ℚ)
    (avail usable : Option Bool) : TableRow :=
  { r with
    name := match name with | some n => some n | none => r.name
    capacity := capacity.getD r.capacity
    is_available := avail.getD r.is_available
    can_be_used := usable.getD r.can_be_used }

/-- `Table.update(db, table_id, name, capacity, is_available, can_be_used)`.
`tid` is `none` when the JS call site passes `undefined` (the parameter then
reaches the parameterized query as NULL and `table_id = NULL` matches no
row). -/
def tableUpdate (st : DB) (tid : Option Nat) (name : Option String)
    (capacity : Option ℚ) (avail usable : Option Bool) : DB × Except MErr Unit :=
  if !(strInRangeOpt name 255 true) then (st, .error .badRequest)
  else if (match capacity with
           | some c => qTruthy c && !(isGreaterThan c 0 true)
           | none => false) then (st, .error .badRequest)
  else if !(name.isSome || capacity.isSome || avail.isSome || usable.isSome) then
    (st, .error .nothingToUpdate)
  else
    let newTables := st.tables.map fun r =>
      if some r.table_id = tid then tableApply r name capacity avail usable else r
    ({ st with tables := newTables }, .ok ())

/-! ## Booking lifecycle (src/unnamed/part_024, module models/Booking) -/

/-- `Booking.add(db, user_id, time, clients_nb)`.  `time` is the result of
`new Date(time)`: `none` when `Checkers.isDate` rejects it (unparseable),
`some t` its epoch value otherwise — the check is validity only, it does not
compare against the current time.  On success the allocated table is flipped
to unavailable (the result of that `Table.update` is not inspected by the JS)
and the booking row is inserted with all four flags at their column default
0. -/
def bookingAdd (st : DB) (user_id : Nat) (time : Option Int) (clients_nb : ℚ) :
    DB × Except MErr Unit :=
  match time with
  | none => (st, .error .badRequest)
  | some t =>
    if !(isGreaterThan clients_nb 0 false) then (st, .error .badRequest)
    else
      match getByTableCapacity st.tables clients_nb with
      | .error _ => (st, .error .badRequest)
      | .ok availableTable =>
        let st1 := (tableUpdate st (some availableTable.table_id) none none (some false) none).1
        ({ st1 with
            bookings := st1.bookings ++
              [⟨st1.nextBookingId, user_id, availableTable.table_id, t, clients_nb,
                false, false, false, false⟩]
            nextBookingId := st1.nextBookingId + 1 },
         .ok ())

/-- The user part of a `FullBooking` as copied by `buildBookings`. -/
structure FbUser where
  user_id : Nat
  role : String
  first_name : String
  last_name : String
  email : String
deriving Repr, DecidableEq

/-- The table part of a `FullBooking` as copied by `buildBookings`. -/
structure FbTable where
  table_id : Nat
  name : Option String
  capacity : ℚ
deriving Repr, DecidableEq

/-- The object `buildBookings` returns for one booking.  Deliberately, as in
the source: the table id only appears nested inside `table`, there is no
top-level `table_id` field, and `is_paid` is not copied at all.  `user` and
`table` are `none` when the corresponding lookup returned a ModelError (the
JS then copies `undefined` fields). -/
structure FullBooking where
  booking_id : Nat
  user : Option FbUser
  table : Option FbTable
  time : Int
  clients_nb : ℚ
  is_client_on_place : Bool
  can_client_pay : Bool
  is_finished : Bool
deriving Repr, DecidableEq

/-- `buildBookings` applied to a single `bookings` row. -/
def buildBooking (st : DB) (b : BookingRow) : FullBooking :=
  { booking_id := b.booking_id
    user := (st.users.find? (fun u => u.user_id == b.user_id)).map
      (fun u => ⟨u.user_id, u.role, u.first_name, u.last_name, u.email⟩)
    table := (st.tables.find? (fun t => t.table_id == b.table_id)).map
      (fun t => ⟨t.table_id, t.name, t.capacity⟩)
    time := b.time
    clients_nb := b.clients_nb
    is_client_on_place := b.is_client_on_place
    can_client_pay := b.can_client_pay
    is_finished := b.is_finished }

/-- `Booking.getById(db, booking_id)`: the matching row passed through
`buildBookings`, else ModelError(404). -/
def bookingGetById (st : DB) (booking_id : Nat) : Except MErr FullBooking :=
  match st.bookings.find? (fun b => b.booking_id == booking_id) with
  | some b => .ok (buildBooking st b)
  | none => .error .notFound

/-- Application of the `SET` clause built by `getFieldsToUpdate` to one
`bookings` row. -/
def bookingApply (r : BookingRow) (table_id : Option Nat) (time : Option Int)
    (clients_nb : Option ℚ) (onPlace canPay fin paid : Option Bool) : BookingRow :=
  { r with
    table_id := table_id.getD r.table_id
    time := time.getD r.time
    clients_nb := clients_nb.getD r.clients_nb
    is_client_on_place := onPlace.getD r.is_client_on_place
    can_client_pay := canPay.getD r.can_client_pay
    is_finished := fin.getD r.is_finished
    is_paid := paid.getD r.is_paid }

/-- `Booking.update(db, booking_id, table_id, time, clients_nb,
is_client_on_place, can_client_pay, is_finished, is_paid)`. -/
def bookingUpdate (st : DB) (booking_id : Nat) (table_id : Option Nat)
    (time : Option Int) (clients_nb : Option ℚ)
    (onPlace canPay fin paid : Option Bool) : DB × Except MErr Unit :=
  if !(table_id.isSome || time.isSome || clients_nb.isSome || onPlace.isSome ||
       canPay.isSome || fin.isSome || paid.isSome) then
    (st, .error .nothingToUpdate)
  else
    let newBookings := st.bookings.map fun r =>
      if r.booking_id = booking_id then
        bookingApply r table_id time clients_nb onPlace canPay fin paid
      else r
    ({ st with bookings := newBookings }, .ok ())

/-! ## Users and orders (src/api/models/User.js; module models/Order, second
document of src/api/models/Stock.js; src/api/models/OrderMenus.js) -/

/-- `User.getById(db, user_id)`: the row or ModelError(404). -/
def userGetById (st : DB) (user_id : Nat) : Except MErr UserRow :=
  match st.users.find? (fun u => u.user_id == user_id) with
  | some u => .ok u
  | none => .error .notFound

/-- JavaScript truthiness of the value `Order.add` receives back from
`User.getById`: a found row and a `ModelError` are both objects, hence both
truthy — the `if (!user)` guard in the source can never fire. -/
def userResultTruthy : Except MErr UserRow → Bool := fun _ => true

/-- `OrderMenus.addMultiple(db, order_id, menus)`.  The typed `menus` list
always satisfies `Checkers.isArray`.  An empty list produces
`INSERT INTO orders_menus(order_id, menu_id) VALUES ` with an empty VALUES
clause — invalid SQL, the query promise rejects. -/
def orderMenusAddMultiple (st : DB) (order_id : Nat) (menus : List MenuIn) :
    DB × Except MErr Unit :=
  if menus.isEmpty then (st, .error .dbError)
  else
    ({ st with ordersMenus := st.ordersMenus ++
        menus.map (fun m => ⟨order_id, m.menu_id⟩) },
     .ok ())

/-- `Order.add(db, booking_id, user_id, additional_infos, menus,
is_take_away)`: validates the notes length, runs the (ineffective) user
check, sums the listed menu prices into `total_price`, inserts the order row,
and only then links the menus via `OrderMenus.addMultiple` — whose failure
leaves the already inserted order row in place. -/
def orderAdd (st : DB) (booking_id : Option Nat) (user_id : Nat)
    (additional_infos : Option String) (menus : List MenuIn)
    (is_take_away : Bool) : DB × Except MErr Unit :=
  if !(strInRangeOpt additional_infos 1000 true) then (st, .error .badRequest)
  else
    let user := userGetById st user_id
    if !(userResultTruthy user) then (st, .error .badRequest)
    else
      let price := menus.foldl (fun acc m => acc + m.price) 0
      let orderId := st.nextOrderId
      let st1 := { st with
        orders := st.orders ++
          [⟨orderId, booking_id, user_id, additional_infos, price, is_take_away, false⟩]
        nextOrderId := orderId + 1 }
      orderMenusAddMultiple st1 orderId menus

/-- Modelled from the spec: `Order.getByBookingId` is called by
`Payment.payBooking` but no definition of it appears among the provided
source files (the Order model document ends at `getAll`).  Per the spec it
"loads all Orders tied to the booking". -/
def orderGetByBookingId (st : DB) (booking_id : Nat) : List OrderRow :=
  st.orders.filter (fun o => o.booking_id == some booking_id)

/-! ## Sales statistics (src/api/models/SalesStatistics.js) -/

/-- `SalesStatistics.addBenefits(db, benefits)`: `Checkers.isNumber` always
holds for `ℚ`; `getCurrDayId` returns today's row id, inserting the row
first (column default `benefits = 0`) when the day has none, and the update
adds `benefits` to it. -/
def addBenefits (st : DB) (benefits : ℚ) : DB × Except MErr Unit :=
  ({ st with todayBenefits := some (st.todayBenefits.getD 0 + benefits) }, .ok ())

/-! ## Payment finalizer (src/unnamed/part_022, module models/Payment) -/

/-- `Payment.payTakeAway(db, user_id, additional_infos, menus)`: places the
order (no booking, take-away), then adds the sum of the menus' listed prices
to today's statistics.  An `Order.add` failure (ModelError or rejected query)
is surfaced after its partial writes. -/
def payTakeAway (st : DB) (user_id : Nat) (additional_infos : Option String)
    (menus : List MenuIn) : DB × Except MErr Unit :=
  match orderAdd st none user_id additional_infos menus true with
  | (st1, .error _) => (st1, .error .badRequest)
  | (st1, .ok _) =>
    let benefits := menus.foldl (fun acc m => acc + m.price) 0
    match addBenefits st1 benefits with
    | (st2, .error _) => (st2, .error .badRequest)
    | (st2, .ok _) => (st2, .ok ())

/-- `Payment.payBooking(db, booking_id)`: rejects a finished booking, marks
the booking finished and paid, frees the table, and records the bookings'
orders total.  The table release reads `booking.table_id` — a field the
`FullBooking` built by `buildBookings` does not have (the id sits at
`booking.table.table_id`), so the JS value is `undefined`, reaches the query
as NULL, and the update matches no `tables` row. -/
def payBooking (st : DB) (booking_id : Nat) : DB × Except MErr Unit :=
  match bookingGetById st booking_id with
  | .error _ => (st, .error .badRequest)
  | .ok booking =>
    if booking.is_finished then (st, .error .badRequest)
    else
      match bookingUpdate st booking_id none none none
          (some false) (some false) (some true) (some true) with
      | (st1, .error _) => (st1, .error .badRequest)
      | (st1, .ok _) =>
        match tableUpdate st1 none none none (some true) none with
        | (st2, .error _) => (st2, .error .badRequest)
        | (st2, .ok _) =>
          let orders := orderGetByBookingId st2 booking_id
          let benefits := orders.foldl (fun acc o => acc + o.total_price) 0
          match addBenefits st2 benefits with
          | (st3, .error _) => (st3, .error .badRequest)
          | (st3, .ok _) => (st3, .ok ())

/-! ## Stock ledger (src/api/models/Stock.js) and menu-ingredient placeholder
creation (src/api/models/Menu.js) -/

/-- `Stock.add(db, name, units, units_unit_id, unit_price, is_orderable,
is_cookable, use_by_date_min, use_by_date_max)`: validates the name length,
the shelf-life window, `units >= 0` and `unit_price >= 0`, then inserts the
row (a falsy shelf-life bound is stored as NULL). -/
def stockAdd (st : DB) (name : String) (units : ℚ) (units_unit_id : Option Nat)
    (unit_price : ℚ) (is_orderable is_cookable : Bool)
    (dmin dmax : Option Int) : DB × Except MErr Unit :=
  if !(decide (name.length ≤ 255)) then (st, .error .badRequest)
  else if !(isDateLowerThan dmin dmax true true) then (st, .error .badRequest)
  else if !(isGreaterThan units 0 true) then (st, .error .badRequest)
  else if !(isGreaterThan unit_price 0 true) then (st, .error .badRequest)
  else
    ({ st with
        stocks := st.stocks ++
          [⟨st.nextStockId, name, units, units_unit_id, unit_price,
            is_orderable, is_cookable, dmin, dmax⟩]
        nextStockId := st.nextStockId + 1 },
     .ok ())

/-- Application of the `SET` clause built by `getFieldsToUpdate` to one
`stocks` row. -/
def stockApply (r : StockRow) (name : Option String) (units : Option ℚ)
    (uuid : Option Nat) (unit_price : Option ℚ) (ord cook : Option Bool)
    (dmin dmax : Option Int) : StockRow :=
  { r with
    name := name.getD r.name
    units := units.getD r.units
    units_unit_id := match uuid with | some u => some u | none => r.units_unit_id
    unit_price := unit_price.getD r.unit_price
    is_orderable := ord.getD r.is_orderable
    is_cookable := cook.getD r.is_cookable
    use_by_date_min := match dmin with | some d => some d | none => r.use_by_date_min
    use_by_date_max := match dmax with | some d => some d | none => r.use_by_date_max }

/-- `Stock.update(db, stock_id, name, units, units_unit_id, unit_price,
is_orderable, is_cookable, use_by_date_min, use_by_date_max)`.  The `units`
and `unit_price` guards replicate the JS `value && !isGreaterThan(value, 0,
true)` pattern: only a truthy (non-zero) provided value is range-checked.
`sid` is `none` when the call site passes something that matches no row (see
`stockAddOrEdit`). -/
def stockUpdate (st : DB) (sid : Option Nat) (name : Option String)
    (units : Option ℚ) (uuid : Option Nat) (unit_price : Option ℚ)
    (ord cook : Option Bool) (dmin dmax : Option Int) : DB × Except MErr Unit :=
  if !(strInRangeOpt name 255 true) then (st, .error .badRequest)
  else if !(isDateLowerThan dmin dmax true true) then (st, .error .badRequest)
  else if (match units with
           | some u => qTruthy u && !(isGreaterThan u 0 true)
           | none => false) then (st, .error .badRequest)
  else if (match unit_price with
           | some p => qTruthy p && !(isGreaterThan p 0 true)
           | none => false) then (st, .error .badRequest)
  else if !(name.isSome || units.isSome || uuid.isSome || unit_price.isSome ||
            ord.isSome || cook.isSome || dmin.isSome || dmax.isSome) then
    (st, .error .nothingToUpdate)
  else
    let newStocks := st.stocks.map fun r =>
      if some r.stock_id = sid then
        stockApply r name units uuid unit_price ord cook dmin dmax
      else r
    ({ st with stocks := newStocks }, .ok ())

/-- `Stock.addOrEdit`: adds when no row carries the name, else updates.  The
source passes the raw `getIdOf` query result (an array of rows) as the
`stock_id` parameter of `update`; serialized into `WHERE stock_id = ?` that
value equals no numeric id, so the update is modelled as matching no row
(`sid = none`) — which interpretation is immaterial to the stock-quantity
invariant, since `stockUpdate` preserves it for every target. -/
def stockAddOrEdit (st : DB) (name : String) (units : ℚ)
    (units_unit_id : Option Nat) (unit_price : ℚ) (is_orderable is_cookable : Bool)
    (dmin dmax : Option Int) : DB × Except MErr Unit :=
  if (st.stocks.filter (fun r => r.name == name)).isEmpty then
    stockAdd st name units units_unit_id unit_price is_orderable is_cookable dmin dmax
  else
    stockUpdate st none (some name) (some units) units_unit_id (some unit_price)
      (some is_orderable) (some is_cookable) dmin dmax

/-- `Menu.addIngredient(db, menu_id, name, units, units_unit_id)`: validates
`units >= 0`; resolves the stock item by name and, when `stockItem ?
stockItem.stock_id : null` is falsy (no row, or id 0), auto-creates a
zero-quantity, zero-price placeholder via `Stock.add`; finally inserts the
`menu_ingredients` row (with a NULL `stock_id` when the placeholder creation
failed and `newItem.insertId` was `undefined`). -/
def menuAddIngredient (st : DB) (menu_id : Nat) (name : String) (units : ℚ)
    (units_unit_id : Option Nat) : DB × Except MErr Unit :=
  if !(decide (0 ≤ units)) then (st, .error .badRequest)
  else
    let found := (st.stocks.find? (fun r => r.name == name)).map (fun r => r.stock_id)
    if found.getD 0 = 0 then
      let newId := st.nextStockId
      let r1 := stockAdd st name 0 units_unit_id 0 false false none none
      let sid : Option Nat := match r1.2 with | .ok _ => some newId | .error _ => none
      ({ r1.1 with menuIngredients := r1.1.menuIngredients ++
          [⟨menu_id, sid, units, units_unit_id⟩] },
       .ok ())
    else
      ({ st with menuIngredients := st.menuIngredients ++
          [⟨menu_id, found, units, units_unit_id⟩] },
       .ok ())

/-! ## Operation alphabet for the stock-quantity invariant (claim C6) -/

/-- The core operations that can touch `stocks`: stock creation, stock
update, add-or-edit, menu-ingredient (placeholder) creation, and order
placement. -/
inductive StockOp where
  | add (name : String) (units : ℚ) (uuid : Option Nat) (price : ℚ)
      (ord cook : Bool) (dmin dmax : Option Int)
  | update (sid : Option Nat) (name : Option String) (units : Option ℚ)
      (uuid : Option Nat) (price : Option ℚ) (ord cook : Option Bool)
      (dmin dmax : Option Int)
  | addOrEdit (name : String) (units : ℚ) (uuid : Option Nat) (price : ℚ)
      (ord cook : Bool) (dmin dmax : Option Int)
  | ingredient (menu_id : Nat) (name : String) (units : ℚ) (uuid : Option Nat)
  | order (booking_id : Option Nat) (user_id : Nat) (infos : Option String)
      (menus : List MenuIn) (takeAway : Bool)

/-- Run one operation, keeping the resulting store (errors leave it as the
operation left it). -/
def applyStockOp (st : DB) : StockOp → DB
  | .add n u id p o c d1 d2 => (stockAdd st n u id p o c d1 d2).1
  | .update sid n u id p o c d1 d2 => (stockUpdate st sid n u id p o c d1 d2).1
  | .addOrEdit n u id p o c d1 d2 => (stockAddOrEdit st n u id p o c d1 d2).1
  | .ingredient m n u id => (menuAddIngredient st m n u id).1
  | .order b uid i ms t => (orderAdd st b uid i ms t).1

/-- Every stock item's quantity-on-hand is nonnegative. -/
def stocksNonneg (st : DB) : Prop := ∀ s ∈ st.stocks, 0 ≤ s.units

/-! ## Spec-side predicate used to state claim C4 -/

/-- Modelled from the spec words, for comparison with the code only: a
"valid future-or-present timestamp" relative to the current time `now`. -/
def specFutureOrPresent (now t : Int) : Prop := now ≤ t

/-! ## Concrete stores used by the counterexamples and witnesses -/

/-- A store with no rows. -/
def emptyDB : DB := ⟨[], [], [], [], [], [], [], none, 1, 1, 1⟩

/-- An available table of capacity 4 that must not be used for bookings. -/
def tC1 : TableRow := ⟨1, none, 4, true, false⟩

/-- Three usable, available tables of capacities 4, 4 and 6, in id order. -/
def stTables : DB :=
  { emptyDB with
    tables := [⟨1, none, 4, true, true⟩, ⟨2, none, 4, true, true⟩, ⟨3, none, 6, true, true⟩] }

/-- An unfinished booking (id 1, user 1) holding the unavailable table 1,
with one order of total price 20 attached; no statistics row for today. -/
def stPay : DB :=
  { emptyDB with
    tables := [⟨1, none, 4, false, true⟩]
    bookings := [⟨1, 1, 1, 50, 2, true, true, false, false⟩]
    users := [⟨1, "client", "a", "b", "c"⟩]
    orders := [⟨1, some 1, 1, none, 20, false, false⟩]
    nextBookingId := 2
    nextOrderId := 2 }

/-- The same scenario with the booking already finished. -/
def stPaid : DB :=
  { stPay with bookings := [⟨1, 1, 1, 50, 2, true, true, true, false⟩] }

/-- One usable, available table of capacity 1. -/
def stOneTable : DB := { emptyDB with tables := [⟨1, none, 1, true, true⟩] }

/-- A store holding only user 1. -/
def stUser : DB := { emptyDB with users := [⟨1, "client", "a", "b", "c"⟩] }

/-- Registry with a mass unit and a volume unit (differing, non-sentinel
types). -/
def regMassVolume : List UnitReg := [⟨"kg", "masse", 1⟩, ⟨"mL", "volume", 1/1000⟩]

/-- Registry with kg as the mass reference unit and g at factor 0.001. -/
def regKgG : List UnitReg := [⟨"kg", "masse", 1⟩, ⟨"g", "masse", 1/1000⟩]

/-- Registry with a mass unit and a unit of the sentinel type "autre". -/
def regAutre : List UnitReg := [⟨"kg", "masse", 1⟩, ⟨"unité", "autre", 1⟩]

/-- A store with one stock item holding 5 units. -/
def stStock : DB :=
  { stUser with stocks := [⟨1, "farine", 5, some 1, 2, true, true, none, none⟩], nextStockId := 2 }

/-! ## Helper lemmas -/

theorem isGreaterThan_eq_true {a b : ℚ} : isGreaterThan a b true = true ↔ b ≤ a := by
  simp [isGreaterThan]

theorem isGreaterThan_strict_eq_true {a b : ℚ} : isGreaterThan a b false = true ↔ b < a := by
  simp [isGreaterThan]

theorem measGetByName_unit_name {reg : List UnitReg} {n : String} {u : UnitReg}
    (h : measGetByName reg n = some u) : u.unit_name = n := by
  simpa using List.find?_some h

theorem selectFirstMinCap_eq_none {l : List TableRow} :
    selectFirstMinCap l = none ↔ l = [] := by
  cases l with
  | nil => simp [selectFirstMinCap]
  | cons r rs =>
    simp only [selectFirstMinCap]
    constructor
    · intro h
      cases hrs : selectFirstMinCap rs with
      | none => rw [hrs] at h; dsimp only at h; exact absurd h (by simp)
      | some b =>
        rw [hrs] at h; dsimp only at h
        by_cases hb : b.capacity < r.capacity
        · rw [if_pos hb] at h; exact absurd h (by simp)
        · rw [if_neg hb] at h; exact absurd h (by simp)
    · intro h; exact absurd h (by simp)

theorem selectFirstMinCap_mem : ∀ {l : List TableRow} {t : TableRow},
    selectFirstMinCap l = some t → t ∈ l := by
  intro l
  induction l with
  | nil => intro t h; simp [selectFirstMinCap] at h
  | cons r rs ih =>
    intro t h
    simp only [selectFirstMinCap] at h
    cases hrs : selectFirstMinCap rs with
    | none =>
      rw [hrs] at h; dsimp only at h
      injection h with h
      exact h ▸ List.mem_cons_self r rs
    | some b =>
      rw [hrs] at h; dsimp only at h
      by_cases hb : b.capacity < r.capacity
      · rw [if_pos hb] at h
        injection h with h
        subst h
        exact List.mem_cons_of_mem r (ih hrs)
      · rw [if_neg hb] at h
        injection h with h
        exact h ▸ List.mem_cons_self r rs

theorem selectFirstMinCap_min : ∀ {l : List TableRow} {t : TableRow},
    selectFirstMinCap l = some t →
    ∀ x ∈ l, t.capacity ≤ x.capacity := by
  intro l
  induction l with
  | nil => intro t h; simp [selectFirstMinCap] at h
  | cons r rs ih =>
    intro t h
    simp only [selectFirstMinCap] at h
    cases hrs : selectFirstMinCap rs with
    | none =>
      rw [hrs] at h; dsimp only at h
      injection h with h
      subst h
      have : rs = [] := selectFirstMinCap_eq_none.mp hrs
      subst this
      intro x hx
      rcases List.mem_cons.mp hx with rfl | hx
      · exact le_refl _
      · simp at hx
    | some b =>
      rw [hrs] at h; dsimp only at h
      by_cases hb : b.capacity < r.capacity
      · rw [if_pos hb] at h
        injection h with h
        subst h
        intro x hx
        rcases List.mem_cons.mp hx with rfl | hx
        · exact le_of_lt hb
        · exact ih hrs x hx
      · rw [if_neg hb] at h
        injection h with h
        subst h
        intro x hx
        rcases List.mem_cons.mp hx with rfl | hx
        · exact le_refl _
        · exact le_trans (not_lt.mp hb) (ih hrs x hx)

theorem selectFirstMinCap_first : ∀ {l : List TableRow} {t : TableRow},
    l.Pairwise (fun a b => a.table_id < b.table_id) →
    selectFirstMinCap l = some t →
    ∀ x ∈ l, x.capacity = t.capacity → t.table_id ≤ x.table_id := by
  intro l
  induction l with
  | nil => intro t hp h; simp [selectFirstMinCap] at h
  | cons r rs ih =>
    intro t hp h
    rw [List.pairwise_cons] at hp
    obtain ⟨hr, hp2⟩ := hp
    simp only [selectFirstMinCap] at h
    cases hrs : selectFirstMinCap rs with
    | none =>
      rw [hrs] at h; dsimp only at h
      injection h with h
      subst h
      have : rs = [] := selectFirstMinCap_eq_none.mp hrs
      subst this
      intro x hx hcap
      rcases List.mem_cons.mp hx with rfl | hx
      · exact le_refl _
      · simp at hx
    | some b =>
      rw [hrs] at h; dsimp only at h
      by_cases hb : b.capacity < r.capacity
      · rw [if_pos hb] at h
        injection h with h
        subst h
        intro x hx hcap
        rcases List.mem_cons.mp hx with rfl | hx
        · exact absurd (hcap ▸ hb) (lt_irrefl _)
        · exact ih hp2 hrs x hx hcap
      · rw [if_neg hb] at h
        injection h with h
        subst h
        intro x hx hcap
        rcases List.mem_cons.mp hx with rfl | hx
        · exact le_refl _
        · exact le_of_lt (hr x hx)

/-! ## Claim C1 -/

/-- C1 counterexample: the claim requires every table returned by the
Capacity Allocator to have `can_be_used = true`, but `getByTableCapacity`
filters only on `is_available`: a store whose sole table is available yet
marked not usable still gets that table returned for a matching capacity
request. -/
theorem getByTableCapacity_returns_unusable_table :
    getByTableCapacity [tC1] 4 = Except.ok tC1 ∧ tC1.can_be_used = false := by
  exact ⟨rfl, rfl⟩

/-- Helper: the table update issued by `Booking.add` (availability set to
false on the allocated table id) rewrites exactly the matching rows. -/
theorem tableUpdate_avail_tables (st : DB) (tid : Nat) :
    (tableUpdate st (some tid) none none (some false) none).1.tables =
      st.tables.map (fun r => if some r.table_id = some tid
        then tableApply r none none (some false) none else r) := rfl

/-- C1 (amended): the table returned by `getByTableCapacity` is a stored
table with `is_available = true` (`can_be_used` is not consulted) whose
capacity is at least the requested one and minimal among the available
tables of sufficient capacity, with ties resolved to the lowest table id
(tables being stored in id order); and a successful `Booking.add` for that
capacity flips exactly that table's `is_available` flag to false. -/
theorem allocator_selects_min_available_and_booking_flips
    (st : DB) (c : ℚ) (t : TableRow) (uid : Nat) (time : Int)
    (hids : st.tables.Pairwise (fun a b => a.table_id < b.table_id))
    (h : getByTableCapacity st.tables c = Except.ok t)
    (hc : 0 < c) :
    t ∈ st.tables ∧
    t.is_available = true ∧
    c ≤ t.capacity ∧
    (∀ u ∈ st.tables, u.is_available = true → c ≤ u.capacity → t.capacity ≤ u.capacity) ∧
    (∀ u ∈ st.tables, u.is_available = true → u.capacity = t.capacity → t.table_id ≤ u.table_id) ∧
    (bookingAdd st uid (some time) c).2 = Except.ok () ∧
    (∀ u ∈ (bookingAdd st uid (some time) c).1.tables,
        u.table_id = t.table_id → u.is_available = false) := by
  have hsel : selectFirstMinCap
      (st.tables.filter (fun r => decide (c ≤ r.capacity) && r.is_available)) = some t := by
    unfold getByTableCapacity at h
    revert h
    cases selectFirstMinCap
        (st.tables.filter (fun r => decide (c ≤ r.capacity) && r.is_available)) with
    | none => intro h; exact absurd h (by simp)
    | some b =>
      intro h
      injection h with h
      rw [h]
  have hmemf := selectFirstMinCap_mem hsel
  obtain ⟨hmem, hpred⟩ := List.mem_filter.mp hmemf
  rw [Bool.and_eq_true, decide_eq_true_eq] at hpred
  obtain ⟨hcap, havail⟩ := hpred
  have hgt : isGreaterThan c 0 false = true := isGreaterThan_strict_eq_true.mpr hc
  refine ⟨hmem, havail, hcap, ?_, ?_, ?_, ?_⟩
  · intro u hu hua huc
    exact selectFirstMinCap_min hsel u
      (List.mem_filter.mpr ⟨hu, by rw [Bool.and_eq_true, decide_eq_true_eq]; exact ⟨huc, hua⟩⟩)
  · intro u hu hua huc
    refine selectFirstMinCap_first (List.Pairwise.filter _ hids) hsel u
      (List.mem_filter.mpr ⟨hu, ?_⟩) huc
    rw [Bool.and_eq_true, decide_eq_true_eq]
    exact ⟨huc ▸ hcap, hua⟩
  · unfold bookingAdd
    rw [hgt]
    dsimp only [Bool.not_true]
    rw [if_neg (by simp), h]
  · unfold bookingAdd
    rw [hgt]
    dsimp only [Bool.not_true]
    rw [if_neg (by simp), h]
    dsimp only
    rw [tableUpdate_avail_tables]
    intro u hu hid
    rcases List.mem_map.mp hu with ⟨r, hr, hmap⟩
    by_cases hcond : some r.table_id = some t.table_id
    · rw [if_pos hcond] at hmap
      subst hmap
      rfl
    · rw [if_neg hcond] at hmap
      subst hmap
      exact absurd (congrArg some hid) hcond

/-- C1 witness: with usable available tables of capacities 4, 4 and 6 in id
order, a request for 3 returns the capacity-4 table with id 1, and the
booking creation flips it to unavailable. -/
theorem allocator_selects_min_available_and_booking_flips_witness :
    getByTableCapacity stTables.tables 3 = Except.ok ⟨1, none, 4, true, true⟩ ∧
    (bookingAdd stTables 7 (some 5) 3).2 = Except.ok () ∧
    (∀ u ∈ (bookingAdd stTables 7 (some 5) 3).1.tables,
        u.table_id = 1 → u.is_available = false) := by
  have hsel : getByTableCapacity stTables.tables 3 = Except.ok ⟨1, none, 4, true, true⟩ := by
    norm_num [getByTableCapacity, selectFirstMinCap, stTables, emptyDB, List.filter]
  have h := allocator_selects_min_available_and_booking_flips stTables 3
    ⟨1, none, 4, true, true⟩ 7 5
    (by norm_num [stTables, emptyDB, List.pairwise_cons]) hsel (by norm_num)
  exact ⟨hsel, h.2.2.2.2.2.1, h.2.2.2.2.2.2⟩

/-! ## Claim C2 -/

/-- C2: paying an unfinished booking succeeds, marks it finished and paid and
adds the booking's orders total (20) to today's statistics — but its reserved
table keeps `is_available = false`: `payBooking` reads `booking.table_id`
from a `FullBooking` that has no such field, so the release update matches no
`tables` row.  The claim says the table is set back to available. -/
theorem payBooking_does_not_release_table :
    (payBooking stPay 1).2 = Except.ok () ∧
    (payBooking stPay 1).1.bookings = [⟨1, 1, 1, 50, 2, false, false, true, true⟩] ∧
    (payBooking stPay 1).1.todayBenefits = some 20 ∧
    (payBooking stPay 1).1.tables = stPay.tables ∧
    stPay.tables = [⟨1, none, 4, false, true⟩] := by
  refine ⟨?_, ?_, ?_, ?_, rfl⟩ <;>
  norm_num [payBooking, bookingGetById, buildBooking, stPay, emptyDB, bookingUpdate,
    bookingApply, tableUpdate, tableApply, strInRangeOpt, qTruthy, isGreaterThan,
    orderGetByBookingId, addBenefits, List.find?, List.filter, List.foldl,
    Option.some_ne_none]

/-! ## Claim C3 -/

/-- C3 counterexample: "kg" (type "masse") and "mL" (type "volume") have
different measurement types, yet `convert` returns the number 1000 instead of
an Incompatible error — no cross-type comparison is performed. -/
theorem convert_cross_type_returns_number :
    convert regMassVolume 1 "kg" "mL" = Except.ok 1000 := by
  have h : convert regMassVolume 1 "kg" "mL" = Except.ok ((1 * 1 : ℚ) * 1000) := rfl
  rw [h]
  norm_num

/-- Helper: with both units resolved and one of them of type "autre",
`convert` returns the non-convertible error. -/
theorem convert_error_of_autre
    {reg : List UnitReg} {v : ℚ} {fromName toName : String} {fu tu : UnitReg}
    (hne : fromName ≠ toName)
    (hf : measGetByName reg fromName = some fu)
    (ht : measGetByName reg toName = some tu)
    (hor : fu.type_name = "autre" ∨ tu.type_name = "autre") :
    convert reg v fromName toName = Except.error MeasErr.notConvertible := by
  unfold convert
  rw [if_neg hne, hf, ht]
  dsimp only
  by_cases h1 : fu.type_name = "autre"
  · rw [if_pos h1]
  · rw [if_neg h1]
    rcases hor with h | h
    · exact absurd h h1
    · rw [if_pos h]

/-- Helper: with both units resolved, neither of type "autre", and a
conversion formula registered for the destination, `convert` returns the
formula applied to the value scaled by the source factor. -/
theorem convert_ok_of_registered
    {reg : List UnitReg} {v : ℚ} {fromName toName : String} {fu tu : UnitReg}
    {f : ℚ → ℚ}
    (hne : fromName ≠ toName)
    (hf : measGetByName reg fromName = some fu)
    (ht : measGetByName reg toName = some tu)
    (h1 : fu.type_name ≠ "autre") (h2 : tu.type_name ≠ "autre")
    (hconv : conversions tu.unit_name = some f) :
    convert reg v fromName toName = Except.ok (f (v * fu.as_ref_unit)) := by
  unfold convert
  rw [if_neg hne, hf, ht]
  dsimp only
  rw [if_neg h1, if_neg h2, hconv]

/-- C3 (amended): `convert` between two distinct registered units fails with
the Incompatible (non-convertible) error exactly when one of the two units
belongs to the sentinel type "autre"; when neither does, no type
compatibility is enforced and any destination with a registered conversion
formula yields a number (the formula applied to the value scaled by the
source factor). -/
theorem convert_fails_iff_type_autre
    (reg : List UnitReg) (v : ℚ) (fromName toName : String) (fu tu : UnitReg)
    (hne : fromName ≠ toName)
    (hf : measGetByName reg fromName = some fu)
    (ht : measGetByName reg toName = some tu) :
    ((fu.type_name = "autre" ∨ tu.type_name = "autre") →
        convert reg v fromName toName = Except.error MeasErr.notConvertible) ∧
    (fu.type_name ≠ "autre" → tu.type_name ≠ "autre" →
        ∀ f, conversions tu.unit_name = some f →
          convert reg v fromName toName = Except.ok (f (v * fu.as_ref_unit))) := by
  constructor
  · intro hor
    exact convert_error_of_autre hne hf ht hor
  · intro h1 h2 f hconv
    exact convert_ok_of_registered hne hf ht h1 h2 hconv

/-- C3 witness: applying the amended statement at a concrete registry where
the destination unit has type "autre". -/
theorem convert_fails_iff_type_autre_witness :
    convert regAutre 5 "kg" "unité" = Except.error MeasErr.notConvertible := by
  exact (convert_fails_iff_type_autre regAutre 5 "kg" "unité"
      ⟨"kg", "masse", 1⟩ ⟨"unité", "autre", 1⟩ (by decide) rfl rfl).1 (Or.inr rfl)

/-! ## Claim C4 -/

/-- C4 counterexample: `Booking.add` only checks that the timestamp parses to
a valid date and that the party size is a number greater than 0.  With the
current time at epoch 100, a booking at past epoch 0 with party size 1/2
(which is below 1) is accepted and inserted, against the claim's
"future-or-present timestamp and a party size >= 1". -/
theorem bookingAdd_accepts_past_date_and_small_party :
    (bookingAdd stOneTable 7 (some 0) (1/2)).2 = Except.ok () ∧
    (bookingAdd stOneTable 7 (some 0) (1/2)).1.bookings =
      [⟨1, 7, 1, 0, 1/2, false, false, false, false⟩] ∧
    ¬ specFutureOrPresent 100 0 ∧ ¬ ((1 : ℚ) ≤ 1/2) := by
  refine ⟨?_, ?_, by simp [specFutureOrPresent], by norm_num⟩ <;>
  norm_num [bookingAdd, getByTableCapacity, selectFirstMinCap, stOneTable, emptyDB,
    tableUpdate, tableApply, strInRangeOpt, qTruthy, isGreaterThan, List.filter,
    Option.some_ne_none]

/-- C4 (amended): `Booking.add` succeeds only when the timestamp parses to a
valid date (no comparison with the current time) and the party size is
greater than 0 (a fractional size below 1 passes); and whenever the Capacity
Allocator finds no table, it returns the ModelError(400) conflict and leaves
the store unchanged — no table flag flipped and no booking row inserted. -/
theorem bookingAdd_validation_and_conflict (st : DB) (uid : Nat)
    (time : Option Int) (n : ℚ) :
    ((bookingAdd st uid time n).2 = Except.ok () → time.isSome = true ∧ 0 < n) ∧
    (getByTableCapacity st.tables n = Except.error MErr.notFound →
        bookingAdd st uid time n = (st, Except.error MErr.badRequest)) := by
  constructor
  · intro h
    unfold bookingAdd at h
    cases time with
    | none => simp at h
    | some t =>
      refine ⟨rfl, ?_⟩
      by_cases hn : isGreaterThan n 0 false = true
      · exact isGreaterThan_strict_eq_true.mp hn
      · rw [Bool.not_eq_true] at hn
        rw [hn] at h
        simp at h
  · intro halloc
    unfold bookingAdd
    cases time with
    | none => rfl
    | some t =>
      by_cases hn : isGreaterThan n 0 false = true
      · rw [hn]
        dsimp only [Bool.not_true]
        rw [if_neg (by simp)]
        rw [halloc]
      · rw [Bool.not_eq_true] at hn
        rw [hn]
        rfl

/-- C4 witness: against an empty table store the allocator finds nothing and
`Booking.add` returns the conflict error with the store untouched; and a
successful add against a one-table store implies the validated facts. -/
theorem bookingAdd_validation_and_conflict_witness :
    (bookingAdd emptyDB 7 (some 5) 2 = (emptyDB, Except.error MErr.badRequest)) ∧
    ((bookingAdd stOneTable 7 (some 5) 1).2 = Except.ok () → ((0:ℚ) < 1)) := by
  constructor
  · exact (bookingAdd_validation_and_conflict emptyDB 7 (some 5) 2).2 rfl
  · intro h
    exact ((bookingAdd_validation_and_conflict stOneTable 7 (some 5) 1).1 h).2

/-! ## Claim C5 -/

/-- C5: `Order.add` is not atomic.  With an existing user and an empty menu
list, the order row (total price 0) is inserted first; the subsequent
`OrderMenus.addMultiple` builds an INSERT with an empty VALUES clause, whose
query fails — the call errors out with the order row persisted and no
`orders_menus` row, the partial write the claim rules out. -/
theorem orderAdd_empty_menus_partial_write :
    (orderAdd stUser none 1 none [] false).2 = Except.error MErr.dbError ∧
    (orderAdd stUser none 1 none [] false).1.orders =
      [⟨1, none, 1, none, 0, false, false⟩] ∧
    (orderAdd stUser none 1 none [] false).1.ordersMenus = [] := by
  refine ⟨?_, ?_, ?_⟩ <;>
  norm_num [orderAdd, orderMenusAddMultiple, userGetById, userResultTruthy, stUser,
    emptyDB, strInRangeOpt, List.find?, List.foldl]

/-! ## Claim C9 -/

/-- C9: the "user exists" validation of `Order.add` never fires:
`User.getById` returns a ModelError object for an unknown id, and a
ModelError is truthy, so `if (!user)` does not reject.  An order for the
nonexistent user 99 is accepted and the order row is written, against the
claim that such requests are rejected before any write. -/
theorem orderAdd_accepts_unknown_user :
    userGetById emptyDB 99 = Except.error MErr.notFound ∧
    (orderAdd emptyDB none 99 none [⟨1, 10⟩] false).2 = Except.ok () ∧
    (orderAdd emptyDB none 99 none [⟨1, 10⟩] false).1.orders =
      [⟨1, none, 99, none, 10, false, false⟩] := by
  refine ⟨rfl, ?_, ?_⟩ <;>
  norm_num [orderAdd, orderMenusAddMultiple, userGetById, userResultTruthy,
    emptyDB, strInRangeOpt, List.find?, List.foldl]

/-! ## Claim C10 -/

/-- C10: with "kg" registered at factor 1 and "g" registered at factor 0.001
on the same non-sentinel type, `convert 1 "kg" "g"` yields exactly 1000 and
converting that result back from "g" to "kg" yields exactly 1 (the model
computes in `ℚ`, so the round-trip is exact, a fortiori within
floating-point tolerance). -/
theorem convert_kg_g_roundtrip (reg : List UnitReg) (u1 u2 : UnitReg)
    (h1 : measGetByName reg "kg" = some u1)
    (h2 : measGetByName reg "g" = some u2)
    (hr1 : u1.as_ref_unit = 1) (hr2 : u2.as_ref_unit = 1/1000)
    (ht1 : u1.type_name ≠ "autre") (ht2 : u2.type_name ≠ "autre") :
    convert reg 1 "kg" "g" = Except.ok 1000 ∧
    convert reg 1000 "g" "kg" = Except.ok 1 := by
  have hn1 : u1.unit_name = "kg" := measGetByName_unit_name h1
  have hn2 : u2.unit_name = "g" := measGetByName_unit_name h2
  constructor
  · have h := convert_ok_of_registered (v := 1) (by decide) h1 h2 ht1 ht2
      (f := fun mass => mass * 1000) (by rw [hn2]; rfl)
    rw [h, hr1]
    norm_num
  · have h := convert_ok_of_registered (v := 1000) (by decide) h2 h1 ht2 ht1
      (f := fun mass => mass) (by rw [hn1]; rfl)
    rw [h, hr2]
    norm_num

/-- C10 witness: the round trip at the concrete two-unit registry. -/
theorem convert_kg_g_roundtrip_witness :
    convert regKgG 1 "kg" "g" = Except.ok 1000 ∧
    convert regKgG 1000 "g" "kg" = Except.ok 1 := by
  exact convert_kg_g_roundtrip regKgG ⟨"kg", "masse", 1⟩ ⟨"g", "masse", 1/1000⟩
    rfl rfl rfl rfl (by decide) (by decide)

/-! ## Claim C6 -/

/-- Helper: order placement never touches the `stocks` table. -/
theorem orderAdd_stocks (st : DB) (b : Option Nat) (uid : Nat) (i : Option String)
    (ms : List MenuIn) (t : Bool) : (orderAdd st b uid i ms t).1.stocks = st.stocks := by
  unfold orderAdd orderMenusAddMultiple userResultTruthy
  split
  next => rfl
  next =>
    dsimp only [Bool.not_true]
    rw [if_neg (by simp)]
    split
    next => rfl
    next => rfl

/-- Helper: `Stock.add` preserves nonnegative quantities — the inserted row
passed the `units >= 0` check. -/
theorem stockAdd_nonneg {st : DB} (h : stocksNonneg st) (n : String) (u : ℚ)
    (uuid : Option Nat) (p : ℚ) (o c : Bool) (d1 d2 : Option Int) :
    stocksNonneg (stockAdd st n u uuid p o c d1 d2).1 := by
  unfold stockAdd
  split
  next => exact h
  next =>
    split
    next => exact h
    next =>
      split
      next => exact h
      next hu =>
        split
        next => exact h
        next =>
          intro s hs
          dsimp only at hs
          rcases List.mem_append.mp hs with hs | hs
          · exact h s hs
          · rcases List.mem_singleton.mp hs with rfl
            have hge : isGreaterThan u 0 true = true := by
              by_cases hb : isGreaterThan u 0 true = true
              · exact hb
              · rw [Bool.not_eq_true] at hb
                exact absurd (by rw [hb]; rfl) hu
            exact isGreaterThan_eq_true.mp hge

/-- Helper: `Stock.update` preserves nonnegative quantities — a provided
nonzero quantity passed the range check and a provided zero is itself
nonnegative. -/
theorem stockUpdate_nonneg {st : DB} (h : stocksNonneg st) (sid : Option Nat)
    (n : Option String) (u : Option ℚ) (uuid : Option Nat) (p : Option ℚ)
    (o c : Option Bool) (d1 d2 : Option Int) :
    stocksNonneg (stockUpdate st sid n u uuid p o c d1 d2).1 := by
  unfold stockUpdate
  split
  next => exact h
  next =>
    split
    next => exact h
    next =>
      split
      next => exact h
      next hu =>
        split
        next => exact h
        next =>
          split
          next => exact h
          next =>
            intro s hs
            dsimp only at hs
            rcases List.mem_map.mp hs with ⟨r, hr, hmap⟩
            by_cases hid : some r.stock_id = sid
            · rw [if_pos hid] at hmap
              subst hmap
              cases u with
              | none => exact h r hr
              | some uq =>
                dsimp only at hu
                have huq : (0:ℚ) ≤ uq := by
                  rcases eq_or_ne uq 0 with rfl | hne0
                  · exact le_refl 0
                  · by_cases hge : isGreaterThan uq 0 true = true
                    · exact isGreaterThan_eq_true.mp hge
                    · exact absurd (by
                        rw [Bool.not_eq_true] at hge
                        simp [qTruthy, hne0, hge]) hu
                simpa [stockApply] using huq
            · rw [if_neg hid] at hmap
              subst hmap
              exact h r hr

/-- Helper: `Stock.addOrEdit` preserves nonnegative quantities. -/
theorem stockAddOrEdit_nonneg {st : DB} (h : stocksNonneg st) (n : String) (u : ℚ)
    (uuid : Option Nat) (p : ℚ) (o c : Bool) (d1 d2 : Option Int) :
    stocksNonneg (stockAddOrEdit st n u uuid p o c d1 d2).1 := by
  unfold stockAddOrEdit
  split
  next => exact stockAdd_nonneg h n u uuid p o c d1 d2
  next =>
    exact stockUpdate_nonneg h none (some n) (some u) uuid (some p)
      (some o) (some c) d1 d2

/-- Helper: `Menu.addIngredient` preserves nonnegative quantities — the
auto-created placeholder stock item has quantity 0. -/
theorem menuAddIngredient_nonneg {st : DB} (h : stocksNonneg st) (m : Nat)
    (n : String) (u : ℚ) (uuid : Option Nat) :
    stocksNonneg (menuAddIngredient st m n u uuid).1 := by
  unfold menuAddIngredient
  split
  next => exact h
  next =>
    dsimp only
    split
    next =>
      intro s hs
      dsimp only at hs
      exact stockAdd_nonneg h n 0 uuid 0 false false none none s hs
    next =>
      intro s hs
      dsimp only at hs
      exact h s hs

/-- C6: along every sequence of core operations — stock creation, stock
update, add-or-edit, menu-ingredient placeholder creation, order placement —
every StockItem quantity-on-hand stays nonnegative: starting from a store
satisfying the invariant, it still holds after the sequence. -/
theorem stocks_stay_nonneg (st : DB) (ops : List StockOp)
    (h : stocksNonneg st) : stocksNonneg (ops.foldl applyStockOp st) := by
  induction ops generalizing st with
  | nil => exact h
  | cons op rest ih =>
    rw [List.foldl_cons]
    apply ih
    cases op with
    | add n u id p o c d1 d2 => exact stockAdd_nonneg h n u id p o c d1 d2
    | update sid n u id p o c d1 d2 => exact stockUpdate_nonneg h sid n u id p o c d1 d2
    | addOrEdit n u id p o c d1 d2 => exact stockAddOrEdit_nonneg h n u id p o c d1 d2
    | ingredient m n u id => exact menuAddIngredient_nonneg h m n u id
    | order b uid i ms t =>
      intro s hs
      rw [applyStockOp, orderAdd_stocks] at hs
      exact h s hs

/-- C6 witness: a store with one stock item at quantity 5 keeps all
quantities nonnegative across an update to 0, a placeholder-creating
ingredient addition, and an order placement. -/
theorem stocks_stay_nonneg_witness :
    stocksNonneg stStock ∧
    stocksNonneg ([StockOp.update (some 1) none (some 0) none none none none none none,
      StockOp.ingredient 3 "sucre" 2 (some 1),
      StockOp.order none 1 none [⟨1, 10⟩] true].foldl applyStockOp stStock) := by
  constructor
  · intro s hs
    simp [stStock, stUser, emptyDB] at hs
    subst hs
    norm_num
  · apply stocks_stay_nonneg
    intro s hs
    simp [stStock, stUser, emptyDB] at hs
    subst hs
    norm_num

/-! ## Claim C7 -/

/-- C7: a successful `payTakeAway` stores an order whose `total_price` is the
sum of the menus listed prices and adds exactly that same amount to today
SalesStatistic row (created lazily when absent): the recorded benefit equals
the stored total price for every menu list. -/
theorem payTakeAway_benefit_equals_total_price (st : DB) (uid : Nat)
    (infos : Option String) (menus : List MenuIn)
    (hne : menus ≠ [])
    (hnotes : strInRangeOpt infos 1000 true = true) :
    (payTakeAway st uid infos menus).2 = Except.ok () ∧
    (payTakeAway st uid infos menus).1.orders =
      st.orders ++ [⟨st.nextOrderId, none, uid, infos,
        menus.foldl (fun acc m => acc + m.price) 0, true, false⟩] ∧
    (payTakeAway st uid infos menus).1.todayBenefits =
      some (st.todayBenefits.getD 0 + menus.foldl (fun acc m => acc + m.price) 0) := by
  have hempty : menus.isEmpty = false := by
    cases menus with
    | nil => exact absurd rfl hne
    | cons a l => rfl
  simp only [payTakeAway, orderAdd, orderMenusAddMultiple, addBenefits, userResultTruthy,
    hnotes, hempty, Bool.not_true, Bool.not_false, if_false, if_true, ite_false, ite_true]
  exact ⟨rfl, rfl, rfl⟩

/-- C7 witness: two menus priced 12.50 and 8.00 yield an order with
`total_price = 20.50` and add 20.50 to today SalesStatistic. -/
theorem payTakeAway_benefit_equals_total_price_witness :
    (payTakeAway stUser 1 none [⟨1, 25/2⟩, ⟨2, 8⟩]).2 = Except.ok () ∧
    (payTakeAway stUser 1 none [⟨1, 25/2⟩, ⟨2, 8⟩]).1.orders =
      [⟨1, none, 1, none, 41/2, true, false⟩] ∧
    (payTakeAway stUser 1 none [⟨1, 25/2⟩, ⟨2, 8⟩]).1.todayBenefits = some (41/2) := by
  have h := payTakeAway_benefit_equals_total_price stUser 1 none [⟨1, 25/2⟩, ⟨2, 8⟩]
    (by simp) rfl
  refine ⟨h.1, ?_, ?_⟩
  · rw [h.2.1]
    norm_num [stUser, emptyDB, List.foldl]
  · rw [h.2.2]
    norm_num [stUser, emptyDB, List.foldl]

/-! ## Claim C8 -/

/-- C8: `payBooking` on a booking already marked finished returns the
conflict ModelError(400) and leaves the whole store untouched — the booking
and its table are unmodified and nothing is added to today SalesStatistic,
so no duplicate sales entry can arise. -/
theorem payBooking_finished_conflict_no_change (st : DB) (bid : Nat)
    (fb : FullBooking)
    (h : bookingGetById st bid = Except.ok fb)
    (hfin : fb.is_finished = true) :
    payBooking st bid = (st, Except.error MErr.badRequest) := by
  unfold payBooking
  rw [h]
  simp [hfin]

/-- C8 witness: paying the already finished booking of `stPaid` errors out
and returns the store unchanged. -/
theorem payBooking_finished_conflict_no_change_witness :
    payBooking stPaid 1 = (stPaid, Except.error MErr.badRequest) :=
  payBooking_finished_conflict_no_change stPaid 1
    ⟨1, some ⟨1, "client", "a", "b", "c"⟩, some ⟨1, none, 4⟩, 50, 2, true, true, true⟩
    rfl rfl

end GoodFork
